import Mathlib

/-!
Shallow embedding of `openhtf/exe/dutmanager.py`: DUT lifecycle handlers
(StubHandler, AndroidHandler, FrontendHandler, FrontendAndroidHandler) and the
DutManager facade.

Modelling conventions:
- Python `None` becomes `Option.none`; a DUT identity (serial) is a `String`.
- The class-level `FrontendHandler.DEQUE_MAP` (a `defaultdict(deque)` keyed by
  cell number) is an explicit `DequeMap := Nat → List Identity`, threaded
  through the operations; a missing key is the empty queue, matching
  `defaultdict`.
- Blocking operations return `Option`: `none` means the call has not returned
  (it is still blocked waiting on the condition variable), `some` carries the
  produced value and the updated state.  The condition-variable wait loop
  `while not len(...): cond.wait()` is thus modelled by its observable effect:
  the call completes exactly when the queue is non-empty.
- USB enumeration (`local_usb.LibUsbHandle.Open`) is an oracle
  `Env : Nat → OpenCall → OpenResult`: call number `t` (a global counter of
  `Open` invocations) and the arguments passed by `_TryOpen` (the
  `serial_number` filter and which interface triple — adb or fastboot — is
  being tried) determine the outcome: a handle with some serial
  (`OpenResult.found`), `DeviceNotFoundError` (`OpenResult.notFound`), or
  `MultipleInterfacesFoundError` (`OpenResult.multiple`).
- Unbounded `while` loops take a fuel argument; `none` means the loop did not
  terminate within the given number of iterations (it is still blocking).
- Observable side effects (queue pops, `Open` attempts, `logging.warning` on
  multiple devices, `time.sleep(1)`) are recorded in a trace of `Ev` events so
  that ordering and retry claims are statable.
-/

/-- A DUT identity: the serial number string (or a configured placeholder). -/
abbrev Identity := String

/-- Result of one `local_usb.LibUsbHandle.Open` attempt, as observed by
`AndroidHandler._TryOpen`: success with the handle's serial number,
`DeviceNotFoundError`, or `MultipleInterfacesFoundError`. -/
inductive OpenResult where
  | found (serial : Identity)
  | notFound
  | multiple
deriving DecidableEq

/-- Which interface triple `_TryOpen` is currently trying: the adb_device
(CLASS, SUBCLASS, PROTOCOL) triple or the fastboot_device one. -/
inductive Iface where
  | adb
  | fastboot
deriving DecidableEq

/-- Arguments of one `LibUsbHandle.Open` call made by `_TryOpen`: the
`serial_number=` filter it passes and the interface triple. -/
structure OpenCall where
  serial_filter : Option Identity
  iface : Iface
deriving DecidableEq

/-- USB enumeration oracle: outcome of the `t`-th `Open` call given its
arguments.  External collaborator, not part of this module. -/
abbrev Env := Nat → OpenCall → OpenResult

/-- Observable events: a deque pop by `_WaitForFrontend` on a cell, a USB
`Open` attempt with its outcome, the `logging.warning` emitted on
`MultipleInterfacesFoundError`, and `time.sleep(n)` (the source only ever
sleeps 1 second). -/
inductive Ev where
  | pop (cell : Nat) (serial : Identity)
  | openAttempt (c : OpenCall) (r : OpenResult)
  | warnMultiple
  | sleep (secs : Nat)
deriving DecidableEq

/-- Configuration, restricted to the two options this module declares:
`test_start` (default "auto") and `unknown_dut_id` (default "UNKNOWN_DUT_ID"). -/
structure Config where
  test_start : String
  unknown_dut_id : String
deriving DecidableEq

/-! ## FrontendHandler (ExternalEvent strategy) -/

/-- Instance state of `FrontendHandler.__init__`: the cell number and
`self.serial`, the stash (`None` initially). -/
structure FrontendState where
  cell_number : Nat
  serial : Option Identity
deriving DecidableEq

/-- The class-level `DEQUE_MAP`: cell number to deque of pending serials. -/
abbrev DequeMap := Nat → List Identity

/-- The initial `collections.defaultdict(collections.deque)`: every key maps
to an empty deque. -/
def emptyDeques : DequeMap := fun _ => []

/-- `FrontendHandler.Enqueue(cell_number, serial='')`: append `serial` to the
cell's deque (and `notifyAll` the condition, which in this model is absorbed
into the blocking semantics of `WaitForFrontend`). -/
def FrontendHandler.Enqueue (m : DequeMap) (cell : Nat) (serial : Identity) :
    DequeMap :=
  fun k => if k = cell then m k ++ [serial] else m k

/-- `FrontendHandler._WaitForFrontend`: wait until the cell's deque is
non-empty, then `popleft` and return the head.  `none` = still blocked
(queue empty); on success, returns the popped serial, the updated deque map,
and the pop event. -/
def FrontendHandler.WaitForFrontend (m : DequeMap) (cell : Nat) :
    Option (Identity × DequeMap × List Ev) :=
  match m cell with
  | [] => none
  | s :: rest => some (s, fun k => if k = cell then rest else m k, [Ev.pop cell s])

/-- `FrontendHandler.TestStart`: if `self.serial is not None`, set
`self.serial = None` and return `self.serial` — which, at that point, is
`None` (this is exactly what the source does); otherwise return
`self._WaitForFrontend()`.  The returned value is `Option Identity` because
the stash branch of the source returns Python `None`. -/
def FrontendHandler.TestStart (st : FrontendState) (m : DequeMap) :
    Option (Option Identity × FrontendState × DequeMap × List Ev) :=
  match st.serial with
  | some _ => some (none, { st with serial := none }, m, [])
  | none =>
    match FrontendHandler.WaitForFrontend m st.cell_number with
    | none => none
    | some (s, m', tr) => some (some s, st, m', tr)

/-- `FrontendHandler.TestStop`: `self.serial = self._WaitForFrontend()` —
block for the next frontend event, pop it and stash its serial. -/
def FrontendHandler.TestStop (st : FrontendState) (m : DequeMap) :
    Option (FrontendState × DequeMap × List Ev) :=
  match FrontendHandler.WaitForFrontend m st.cell_number with
  | none => none
  | some (s, m', tr) => some ({ st with serial := some s }, m', tr)

/-! ## AndroidHandler (HardwareProbe strategy) -/

/-- Instance state of `AndroidHandler.__init__`: `self.serial_number = None`. -/
structure AndroidState where
  serial_number : Option Identity
deriving DecidableEq

/-- The state `AndroidHandler.__init__` builds. -/
def AndroidHandler.initState : AndroidState := ⟨none⟩

/-- The `logging.warning` event emitted when an `Open` attempt raises
`MultipleInterfacesFoundError`; the other outcomes log nothing. -/
def warnEv : OpenResult → List Ev
  | OpenResult.multiple => [Ev.warnMultiple]
  | _ => []

/-- Second half of `AndroidHandler._TryOpen`: the fastboot triple attempt,
taken after the adb attempt failed with result `r1`.  Both attempts pass the
same `self.serial_number` filter (it is only reassigned on success, which
returns immediately). -/
def AndroidHandler.TryOpenSecond (env : Env) (st : AndroidState) (t : Nat)
    (r1 : OpenResult) : Bool × AndroidState × Nat × List Ev :=
  match env (t + 1) ⟨st.serial_number, Iface.fastboot⟩ with
  | OpenResult.found s =>
      (true, ⟨some s⟩, t + 2,
        Ev.openAttempt ⟨st.serial_number, Iface.adb⟩ r1 :: warnEv r1
          ++ [Ev.openAttempt ⟨st.serial_number, Iface.fastboot⟩ (OpenResult.found s)])
  | OpenResult.notFound =>
      (false, st, t + 2,
        Ev.openAttempt ⟨st.serial_number, Iface.adb⟩ r1 :: warnEv r1
          ++ [Ev.openAttempt ⟨st.serial_number, Iface.fastboot⟩ OpenResult.notFound])
  | OpenResult.multiple =>
      (false, st, t + 2,
        Ev.openAttempt ⟨st.serial_number, Iface.adb⟩ r1 :: warnEv r1
          ++ (Ev.openAttempt ⟨st.serial_number, Iface.fastboot⟩ OpenResult.multiple
                :: warnEv OpenResult.multiple))

/-- `AndroidHandler._TryOpen`: try `Open(serial_number=self.serial_number, …)`
for the adb triple then the fastboot triple; on success store the handle's
serial in `self.serial_number` and return `True`; `DeviceNotFoundError` is
ignored and `MultipleInterfacesFoundError` logs a warning, both falling
through to the next triple; after both fail return `False`.  Returns
(success, state, next call counter, events). -/
def AndroidHandler.TryOpen (env : Env) (st : AndroidState) (t : Nat) :
    Bool × AndroidState × Nat × List Ev :=
  match env t ⟨st.serial_number, Iface.adb⟩ with
  | OpenResult.found s =>
      (true, ⟨some s⟩, t + 1,
        [Ev.openAttempt ⟨st.serial_number, Iface.adb⟩ (OpenResult.found s)])
  | OpenResult.notFound => AndroidHandler.TryOpenSecond env st t OpenResult.notFound
  | OpenResult.multiple => AndroidHandler.TryOpenSecond env st t OpenResult.multiple

/-- `AndroidHandler.TestStart`: `while not self._TryOpen(): time.sleep(1)`,
then `return self.serial_number`.  Fuel bounds how many `_TryOpen` attempts we
unroll; `none` means the loop is still running (still blocked) after that many
attempts. -/
def AndroidHandler.TestStart (env : Env) :
    Nat → AndroidState → Nat → Option (Option Identity × AndroidState × Nat × List Ev)
  | 0, _, _ => none
  | fuel + 1, st, t =>
    match AndroidHandler.TryOpen env st t with
    | (true, st', t', tr') => some (st'.serial_number, st', t', tr')
    | (false, st', t', tr') =>
      (AndroidHandler.TestStart env fuel st' t').map
        (fun p => (p.1, p.2.1, p.2.2.1, tr' ++ Ev.sleep 1 :: p.2.2.2))

/-- `AndroidHandler.TestStop`: `while self._TryOpen(): time.sleep(1)`, then
`self.serial_number = None`. -/
def AndroidHandler.TestStop (env : Env) :
    Nat → AndroidState → Nat → Option (AndroidState × Nat × List Ev)
  | 0, _, _ => none
  | fuel + 1, st, t =>
    match AndroidHandler.TryOpen env st t with
    | (true, st', t', tr') =>
      (AndroidHandler.TestStop env fuel st' t').map
        (fun p => (p.1, p.2.1, tr' ++ Ev.sleep 1 :: p.2.2))
    | (false, st', t', tr') => some ({ st' with serial_number := none }, t', tr')

/-! ## FrontendAndroidHandler (ExternalEvent then HardwareProbe) -/

/-- `FrontendAndroidHandler.TestStart`: run the inherited
`FrontendHandler.TestStart` first (discarding its result), then
`self.android_handler.TestStart()` and return its serial.  The trace is the
frontend events followed by the probe events. -/
def FrontendAndroidHandler.TestStart (env : Env) (fuel : Nat)
    (fst : FrontendState) (ast : AndroidState) (m : DequeMap) (t : Nat) :
    Option (Option Identity × FrontendState × AndroidState × DequeMap × Nat × List Ev) :=
  match FrontendHandler.TestStart fst m with
  | none => none
  | some (_, fst', m', trf) =>
    match AndroidHandler.TestStart env fuel ast t with
    | none => none
    | some (r, ast', t', tra) => some (r, fst', ast', m', t', trf ++ tra)

/-- `FrontendAndroidHandler.TestStop` is inherited from `FrontendHandler`
unchanged: it only touches the frontend state; `self.android_handler` is not
involved and no USB probe or sleep happens. -/
def FrontendAndroidHandler.TestStop (fst : FrontendState) (ast : AndroidState)
    (m : DequeMap) : Option (FrontendState × AndroidState × DequeMap × List Ev) :=
  match FrontendHandler.TestStop fst m with
  | none => none
  | some (fst', m', tr) => some (fst', ast, m', tr)

/-! ## DutManager facade and construction -/

/-- A constructed handler instance, remembering which class it is and its
instance state (the stub stores the config object, as
`StubHandler.__init__` does). -/
inductive Handler where
  | stub (config : Config)
  | android (st : AndroidState)
  | frontend (st : FrontendState)
  | frontendAndroid (fst : FrontendState) (ast : AndroidState)
deriving DecidableEq

/-- `StubHandler(cell_number, config)`. -/
def StubHandler.init (_cell : Nat) (config : Config) : Handler :=
  Handler.stub config

/-- `AndroidHandler(cell_number, config)`: ignores both, `serial_number = None`. -/
def AndroidHandler.init (_cell : Nat) (_config : Config) : Handler :=
  Handler.android ⟨none⟩

/-- `FrontendHandler(cell_number, config)`: stores the cell number,
`self.serial = None`. -/
def FrontendHandler.init (cell : Nat) (_config : Config) : Handler :=
  Handler.frontend ⟨cell, none⟩

/-- `FrontendAndroidHandler(cell_number, config)`: the inherited frontend
state plus a fresh `AndroidHandler`. -/
def FrontendAndroidHandler.init (cell : Nat) (_config : Config) : Handler :=
  Handler.frontendAndroid ⟨cell, none⟩ ⟨none⟩

/-- `InvalidTestStartError`, carrying the offending `test_start` value. -/
inductive DutError where
  | invalidTestStart (given : String)
deriving DecidableEq

/-- `DutManager.HANDLERS`: the mapping from `test_start` values to handler
constructors. -/
def DutManager.HANDLERS : List (String × (Nat → Config → Handler)) :=
  [("android", AndroidHandler.init),
   ("frontend", FrontendAndroidHandler.init),
   ("frontend_serial", FrontendHandler.init),
   ("auto", StubHandler.init)]

/-- A DutManager owns exactly one handler. -/
structure DutManager where
  handler : Handler
deriving DecidableEq

/-- `DutManager.FromConfig(cell_number, config)`: raise
`InvalidTestStartError` when `config.test_start` is not a key of `HANDLERS`,
else construct the corresponding handler and wrap it. -/
def DutManager.FromConfig (cell : Nat) (config : Config) :
    Except DutError DutManager :=
  match DutManager.HANDLERS.lookup config.test_start with
  | none => Except.error (DutError.invalidTestStart config.test_start)
  | some ctor => Except.ok ⟨ctor cell config⟩

/-- The ambient mutable world a handler interacts with: the shared class-level
deque map, the USB enumeration oracle, and the `Open` call counter. -/
structure World where
  deques : DequeMap
  env : Env
  time : Nat

/-- `DutManager.WaitForTestStart`: `return self.handler.TestStart()` —
pure delegation to the owned handler, dispatching on its class.  `fuel`
bounds the probe loops (ignored by handlers that do not poll). -/
def DutManager.WaitForTestStart (d : DutManager) (w : World) (fuel : Nat) :
    Option (Option Identity × DutManager × World × List Ev) :=
  match d.handler with
  | Handler.stub config => some (some config.unknown_dut_id, d, w, [])
  | Handler.android st =>
    match AndroidHandler.TestStart w.env fuel st w.time with
    | none => none
    | some (r, st', t', tr) =>
      some (r, ⟨Handler.android st'⟩, { w with time := t' }, tr)
  | Handler.frontend st =>
    match FrontendHandler.TestStart st w.deques with
    | none => none
    | some (r, st', m', tr) =>
      some (r, ⟨Handler.frontend st'⟩, { w with deques := m' }, tr)
  | Handler.frontendAndroid fst ast =>
    match FrontendAndroidHandler.TestStart w.env fuel fst ast w.deques w.time with
    | none => none
    | some (r, fst', ast', m', t', tr) =>
      some (r, ⟨Handler.frontendAndroid fst' ast'⟩,
            { deques := m', env := w.env, time := t' }, tr)

/-- `DutManager.WaitForTestStop`: `self.handler.TestStop()` — pure
delegation. -/
def DutManager.WaitForTestStop (d : DutManager) (w : World) (fuel : Nat) :
    Option (DutManager × World × List Ev) :=
  match d.handler with
  | Handler.stub _ => some (d, w, [])
  | Handler.android st =>
    match AndroidHandler.TestStop w.env fuel st w.time with
    | none => none
    | some (st', t', tr) =>
      some (⟨Handler.android st'⟩, { w with time := t' }, tr)
  | Handler.frontend st =>
    match FrontendHandler.TestStop st w.deques with
    | none => none
    | some (st', m', tr) =>
      some (⟨Handler.frontend st'⟩, { w with deques := m' }, tr)
  | Handler.frontendAndroid fst ast =>
    match FrontendAndroidHandler.TestStop fst ast w.deques with
    | none => none
    | some (fst', ast', m', tr) =>
      some (⟨Handler.frontendAndroid fst' ast'⟩, { w with deques := m' }, tr)

/-- Repeated `WaitForTestStart` calls: the list of returned identities after
`n` consecutive calls (each feeding the next), or `none` if any call blocks
for longer than its fuel. -/
def iterateStart (d : DutManager) (w : World) (fuel : Nat) :
    Nat → Option (List (Option Identity) × DutManager × World)
  | 0 => some ([], d, w)
  | n + 1 =>
    match DutManager.WaitForTestStart d w fuel with
    | none => none
    | some (r, d', w', _) =>
      match iterateStart d' w' fuel n with
      | none => none
      | some (rs, d'', w'') => some (r :: rs, d'', w'')

/-! ## Queue-level producer/consumer traces (for the FIFO invariant)

A `QOp` is one interaction with the shared deque map: a producer's
`FrontendHandler.Enqueue(cell, serial)` or the consumer's
`_WaitForFrontend` pop attempt on a cell (which does nothing while the
cell's queue is empty — the consumer is still blocked in `cond.wait`). -/

/-- One operation against the class-level deque map. -/
inductive QOp where
  | enq (cell : Nat) (serial : Identity)
  | deq (cell : Nat)
deriving DecidableEq

/-- Deque map together with, per cell, the values its consumer has popped so
far, oldest first. -/
structure QTrace where
  deques : DequeMap
  popped : Nat → List Identity

/-- The initial trace state: all queues empty, nothing popped. -/
def initQTrace : QTrace := ⟨emptyDeques, fun _ => []⟩

/-- Apply one queue operation: `enq` is `FrontendHandler.Enqueue`; `deq` is
one `_WaitForFrontend` completion attempt — if the cell's queue is empty the
blocked consumer observes nothing, else exactly the head is removed and
recorded as delivered. -/
def stepQOp (s : QTrace) : QOp → QTrace
  | QOp.enq cell v => { s with deques := FrontendHandler.Enqueue s.deques cell v }
  | QOp.deq cell =>
    match FrontendHandler.WaitForFrontend s.deques cell with
    | none => s
    | some (v, m', _) =>
      { deques := m',
        popped := fun k => if k = cell then s.popped k ++ [v] else s.popped k }

/-- Run a sequence of queue operations. -/
def runQOps : List QOp → QTrace → QTrace
  | [], s => s
  | op :: ops, s => runQOps ops (stepQOp s op)

/-- The serials enqueued on cell `k` by a sequence of operations, in order. -/
def enqueuedOn : List QOp → Nat → List Identity
  | [], _ => []
  | QOp.enq cell v :: ops, k =>
    if k = cell then v :: enqueuedOn ops k else enqueuedOn ops k
  | QOp.deq _ :: ops, k => enqueuedOn ops k

/-! ## Auxiliary measures on traces -/

/-- Number of `time.sleep(1)` events in a trace. -/
def countSleeps : List Ev → Nat
  | [] => 0
  | Ev.sleep 1 :: rest => countSleeps rest + 1
  | _ :: rest => countSleeps rest

/-- Whether every USB `Open` attempt recorded in a trace passed exactly the
filter `f` as its `serial_number=` argument. -/
def allOpensUse (f : Option Identity) : List Ev → Bool
  | [] => true
  | Ev.openAttempt c _ :: rest => decide (c.serial_filter = f) && allOpensUse f rest
  | _ :: rest => allOpensUse f rest

/-- Map a probe environment so that every `MultipleInterfacesFoundError`
outcome is replaced by `DeviceNotFoundError`. -/
def demoteMultiple (env : Env) : Env := fun t c =>
  match env t c with
  | OpenResult.multiple => OpenResult.notFound
  | r => r

/-- Forget the event trace of a probe-loop result, keeping the returned
serial, the handler state and the call counter. -/
def stripTrace (o : Option (Option Identity × AndroidState × Nat × List Ev)) :
    Option (Option Identity × AndroidState × Nat) :=
  o.map (fun p => (p.1, p.2.1, p.2.2.1))

/-- The observable outcome of one `_TryOpen` call, without its event trace. -/
def tryOpenOutcome (env : Env) (st : AndroidState) (t : Nat) :
    Bool × AndroidState × Nat :=
  ((AndroidHandler.TryOpen env st t).1,
   (AndroidHandler.TryOpen env st t).2.1,
   (AndroidHandler.TryOpen env st t).2.2.1)

/-- A probe environment whose first `2 * K` `Open` calls (i.e. the first `K`
full `_TryOpen` attempts, adb then fastboot) report not-found, and every call
from then on reports a device with serial `X`. -/
def probeGap (K : Nat) (X : Identity) : Env := fun t _ =>
  if t < 2 * K then OpenResult.notFound else OpenResult.found X

/-- Like `probeGap`, but the failing calls report ambiguous enumeration
(`MultipleInterfacesFoundError`) instead of not-found. -/
def probeGapM (K : Nat) (X : Identity) : Env := fun t _ =>
  if t < 2 * K then OpenResult.multiple else OpenResult.found X

/-- A probe environment whose first `M` `Open` calls find the device with
serial `X` (so the first `M` `_TryOpen` attempts succeed on the adb triple),
and every call after that reports not-found. -/
def probeGone (M : Nat) (X : Identity) : Env := fun t _ =>
  if t < M then OpenResult.found X else OpenResult.notFound

/-! ## Concrete scenario constants -/

/-- Sample serial. -/
def idS1 : Identity := "S1"

/-- Second sample serial. -/
def idS2 : Identity := "S2"

/-- Generic sample serial. -/
def idS : Identity := "S"

/-- The empty serial, `Enqueue`'s default payload. -/
def emptySerial : Identity := ""

/-- The stash-law scenario of the spec, run on cell 1 against the embedded
`FrontendHandler`: enqueue "S1", `TestStart`, enqueue "S2", `TestStop`,
`TestStart` again with no further enqueue.  Records, in order: the first
`TestStart` result, the stash left by `TestStop`, cell 1's queue after
`TestStop`, the second `TestStart` result, and the stash it leaves. -/
def c1_run :
    Option (Option Identity × Option Identity × List Identity ×
            Option Identity × Option Identity) :=
  match FrontendHandler.TestStart ⟨1, none⟩
      (FrontendHandler.Enqueue emptyDeques 1 idS1) with
  | none => none
  | some (r1, st1, m2, _) =>
    match FrontendHandler.TestStop st1 (FrontendHandler.Enqueue m2 1 idS2) with
    | none => none
    | some (st2, m4, _) =>
      match FrontendHandler.TestStart st2 m4 with
      | none => none
      | some (r2, st3, _, _) => some (r1, st2.serial, m4 1, r2, st3.serial)

/-- Third sample serial, the one the hardware probe reports. -/
def idX : Identity := "X"

/-- Configuration selecting the android strategy. -/
def cfgAndroid : Config := ⟨"android", "U"⟩

/-- Configuration selecting the frontend strategy. -/
def cfgFrontend : Config := ⟨"frontend", "U"⟩

/-- Configuration selecting the frontend_serial strategy. -/
def cfgFrontendSerial : Config := ⟨"frontend_serial", "U"⟩

/-- Configuration selecting the auto (stub) strategy. -/
def cfgAuto : Config := ⟨"auto", "U"⟩

/-- An unrecognized configuration value. -/
def cfgBad : Config := ⟨"bogus", "U"⟩

/-- A probe environment in which every `Open` call immediately finds the
device with serial "X". -/
def envFoundX : Env := fun _ _ => OpenResult.found idX

/-- A probe environment in which every `Open` call reports not-found. -/
def envGone : Env := fun _ _ => OpenResult.notFound

/-- A probe environment in which every `Open` call reports multiple matching
devices. -/
def envMulti : Env := fun _ _ => OpenResult.multiple

/-- A deque map with "S1" pending on every cell. -/
def oneS1Deque : DequeMap := fun _ => [idS1]

/-- The deque map left after popping cell 1 of `oneS1Deque`. -/
def c4mAfter : DequeMap := fun j => if j = 1 then [] else oneS1Deque j

/-! ## Claim theorems -/

/-- C1: the stash law fails on this code.  Running the spec's scenario on one
channel — `Enqueue(1, "S1")`; `WaitForTestStart` (returns "S1");
`Enqueue(1, "S2")`; `WaitForTestStop` (consumes "S2" from the queue, which
becomes empty, and stashes it); `WaitForTestStart` — the final `TestStart`
takes the stash branch, clears the stash, but returns `None` (the source sets
`self.serial = None` and then returns `self.serial`), not the stashed "S2"
that the claim, and `TestStop`'s own docstring ("we have to save the serial in
that event for the next call to TestStart()"), require. -/
theorem dut_C1_code_bug :
    c1_run = some (some idS1, some idS2, [], none, none) := by
  rfl

/-- C2: `DutManager.FromConfig` maps "android" to `AndroidHandler`,
"frontend" to `FrontendAndroidHandler`, "frontend_serial" to
`FrontendHandler` and "auto" to `StubHandler`, each constructed with its
`__init__` state, and raises `InvalidTestStartError` for every other
`test_start` value, constructing no manager or handler. -/
theorem dut_C2 (cell : Nat) (config : Config) :
    (config.test_start = "android" →
      DutManager.FromConfig cell config = Except.ok ⟨Handler.android ⟨none⟩⟩) ∧
    (config.test_start = "frontend" →
      DutManager.FromConfig cell config
        = Except.ok ⟨Handler.frontendAndroid ⟨cell, none⟩ ⟨none⟩⟩) ∧
    (config.test_start = "frontend_serial" →
      DutManager.FromConfig cell config = Except.ok ⟨Handler.frontend ⟨cell, none⟩⟩) ∧
    (config.test_start = "auto" →
      DutManager.FromConfig cell config = Except.ok ⟨Handler.stub config⟩) ∧
    (config.test_start ∉ ["android", "frontend", "frontend_serial", "auto"] →
      DutManager.FromConfig cell config
        = Except.error (DutError.invalidTestStart config.test_start)) := by
  obtain ⟨ts, uid⟩ := config
  refine ⟨?_, ?_, ?_, ?_, ?_⟩ <;> intro h
  · replace h : ts = "android" := h
    subst h; rfl
  · replace h : ts = "frontend" := h
    subst h; rfl
  · replace h : ts = "frontend_serial" := h
    subst h; rfl
  · replace h : ts = "auto" := h
    subst h; rfl
  · replace h : ts ∉ ["android", "frontend", "frontend_serial", "auto"] := h
    simp only [List.mem_cons, List.not_mem_nil, or_false, not_or] at h
    obtain ⟨h1, h2, h3, h4⟩ := h
    simp [DutManager.FromConfig, DutManager.HANDLERS, List.lookup,
          beq_eq_false_iff_ne.mpr h1, beq_eq_false_iff_ne.mpr h2,
          beq_eq_false_iff_ne.mpr h3, beq_eq_false_iff_ne.mpr h4]

/-- C2 witness: the mapping evaluated on concrete configurations, including a
rejected one. -/
theorem dut_C2_witness :
    DutManager.FromConfig 3 cfgAndroid = Except.ok ⟨Handler.android ⟨none⟩⟩ ∧
    DutManager.FromConfig 3 cfgFrontend
      = Except.ok ⟨Handler.frontendAndroid ⟨3, none⟩ ⟨none⟩⟩ ∧
    DutManager.FromConfig 3 cfgFrontendSerial
      = Except.ok ⟨Handler.frontend ⟨3, none⟩⟩ ∧
    DutManager.FromConfig 3 cfgAuto = Except.ok ⟨Handler.stub cfgAuto⟩ ∧
    DutManager.FromConfig 3 cfgBad
      = Except.error (DutError.invalidTestStart cfgBad.test_start) :=
  ⟨(dut_C2 3 cfgAndroid).1 rfl,
   (dut_C2 3 cfgFrontend).2.1 rfl,
   (dut_C2 3 cfgFrontendSerial).2.2.1 rfl,
   (dut_C2 3 cfgAuto).2.2.2.1 rfl,
   (dut_C2 3 cfgBad).2.2.2.2 (by decide)⟩

/-- C6: with no stash pending, `TestStart` on an empty channel `k` blocks
(does not return); an `Enqueue` on a different channel `c ≠ k` leaves it
blocked; an `Enqueue` on channel `k` itself lets it return, and it returns
exactly the enqueued serial. -/
theorem dut_C6 (k c : Nat) (m : DequeMap) (v : Identity) (hk : m k = []) :
    FrontendHandler.TestStart ⟨k, none⟩ m = none ∧
    (c ≠ k →
      FrontendHandler.TestStart ⟨k, none⟩ (FrontendHandler.Enqueue m c v) = none) ∧
    (FrontendHandler.TestStart ⟨k, none⟩ (FrontendHandler.Enqueue m k v)).map
        (fun p => p.1) = some (some v) := by
  refine ⟨?_, ?_, ?_⟩
  · simp [FrontendHandler.TestStart, FrontendHandler.WaitForFrontend, hk]
  · intro hc
    simp [FrontendHandler.TestStart, FrontendHandler.WaitForFrontend,
          FrontendHandler.Enqueue, hk, Ne.symm hc]
  · simp [FrontendHandler.TestStart, FrontendHandler.WaitForFrontend,
          FrontendHandler.Enqueue, hk]

/-- C6 witness: the blocking facts evaluated on cell 1 with the empty deque
map, a foreign enqueue on cell 2, and a matching enqueue on cell 1. -/
theorem dut_C6_witness :
    FrontendHandler.TestStart ⟨1, none⟩ emptyDeques = none ∧
    FrontendHandler.TestStart ⟨1, none⟩
        (FrontendHandler.Enqueue emptyDeques 2 idS) = none ∧
    (FrontendHandler.TestStart ⟨1, none⟩
        (FrontendHandler.Enqueue emptyDeques 1 idS)).map (fun p => p.1)
      = some (some idS) :=
  ⟨(dut_C6 1 2 emptyDeques idS rfl).1,
   (dut_C6 1 2 emptyDeques idS rfl).2.1 (by decide),
   (dut_C6 1 2 emptyDeques idS rfl).2.2⟩

/-- C7: on the very first `TestStart` (stash sentinel `self.serial` is
`None`) the handler takes the no-stash branch — it blocks when the queue is
empty; after a `TestStop` that consumed an empty-string serial, the stash is
`some ""` and the next `TestStart` takes the stash branch (returning
immediately even on an empty queue, without touching the queue): the
`is not None` check distinguishes the absent stash from an empty-string
stash. -/
theorem dut_C7 (k : Nat) (m : DequeMap) (hk : m k = []) :
    FrontendHandler.TestStart ⟨k, none⟩ m = none ∧
    (FrontendHandler.TestStop ⟨k, none⟩
        (FrontendHandler.Enqueue m k emptySerial)).map (fun p => p.1)
      = some ⟨k, some emptySerial⟩ ∧
    FrontendHandler.TestStart ⟨k, some emptySerial⟩ m
      = some (none, ⟨k, none⟩, m, []) := by
  refine ⟨?_, ?_, ?_⟩
  · simp [FrontendHandler.TestStart, FrontendHandler.WaitForFrontend, hk]
  · simp [FrontendHandler.TestStop, FrontendHandler.WaitForFrontend,
          FrontendHandler.Enqueue, hk]
  · rfl

/-- C7 witness: the quirk evaluated on cell 1 with the empty deque map. -/
theorem dut_C7_witness :
    FrontendHandler.TestStart ⟨1, none⟩ emptyDeques = none ∧
    (FrontendHandler.TestStop ⟨1, none⟩
        (FrontendHandler.Enqueue emptyDeques 1 emptySerial)).map (fun p => p.1)
      = some ⟨1, some emptySerial⟩ ∧
    FrontendHandler.TestStart ⟨1, some emptySerial⟩ emptyDeques
      = some (none, ⟨1, none⟩, emptyDeques, []) :=
  dut_C7 1 emptyDeques rfl

/-- C9: the stub strategy, through the `DutManager` facade: `n` consecutive
`WaitForTestStart` calls all return the configured `unknown_dut_id`
placeholder, leave the manager and the world untouched, and never block
(the result does not depend on the fuel, and holds even with fuel 0);
`WaitForTestStop` is a no-op that returns immediately. -/
theorem dut_C9 (config : Config) (w : World) (fuel n : Nat) :
    iterateStart ⟨Handler.stub config⟩ w fuel n
      = some (List.replicate n (some config.unknown_dut_id),
              ⟨Handler.stub config⟩, w) ∧
    DutManager.WaitForTestStop ⟨Handler.stub config⟩ w fuel
      = some (⟨Handler.stub config⟩, w, []) := by
  constructor
  · induction n with
    | zero => rfl
    | succ n ih =>
      simp [iterateStart, DutManager.WaitForTestStart, ih, List.replicate]
  · rfl

/-! ## Trace-measure lemmas -/

theorem countSleeps_nil : countSleeps [] = 0 := rfl

theorem countSleeps_openAttempt (c : OpenCall) (r : OpenResult) (l : List Ev) :
    countSleeps (Ev.openAttempt c r :: l) = countSleeps l := rfl

theorem countSleeps_warn (l : List Ev) :
    countSleeps (Ev.warnMultiple :: l) = countSleeps l := rfl

theorem countSleeps_pop (cell : Nat) (s : Identity) (l : List Ev) :
    countSleeps (Ev.pop cell s :: l) = countSleeps l := rfl

theorem countSleeps_sleep1 (l : List Ev) :
    countSleeps (Ev.sleep 1 :: l) = countSleeps l + 1 := rfl

theorem allOpensUse_nil (f : Option Identity) : allOpensUse f [] = true := rfl

theorem allOpensUse_openAttempt (f : Option Identity) (c : OpenCall)
    (r : OpenResult) (l : List Ev) :
    allOpensUse f (Ev.openAttempt c r :: l)
      = (decide (c.serial_filter = f) && allOpensUse f l) := rfl

theorem allOpensUse_warn (f : Option Identity) (l : List Ev) :
    allOpensUse f (Ev.warnMultiple :: l) = allOpensUse f l := rfl

theorem allOpensUse_pop (f : Option Identity) (cell : Nat) (s : Identity)
    (l : List Ev) : allOpensUse f (Ev.pop cell s :: l) = allOpensUse f l := rfl

theorem allOpensUse_sleep (f : Option Identity) (n : Nat) (l : List Ev) :
    allOpensUse f (Ev.sleep n :: l) = allOpensUse f l := rfl

theorem allOpensUse_append (f : Option Identity) (a b : List Ev) :
    allOpensUse f (a ++ b) = (allOpensUse f a && allOpensUse f b) := by
  induction a with
  | nil => simp [allOpensUse_nil]
  | cons e a ih =>
    cases e <;>
      simp [allOpensUse_openAttempt, allOpensUse_warn, allOpensUse_pop,
            allOpensUse_sleep, ih, Bool.and_assoc]

/-! ## One-step characterizations of the probe loop -/

theorem tryOpen_found (env : Env) (st : AndroidState) (t : Nat) (s : Identity)
    (h : env t ⟨st.serial_number, Iface.adb⟩ = OpenResult.found s) :
    AndroidHandler.TryOpen env st t
      = (true, ⟨some s⟩, t + 1,
         [Ev.openAttempt ⟨st.serial_number, Iface.adb⟩ (OpenResult.found s)]) := by
  simp [AndroidHandler.TryOpen, h]

theorem tryOpen_bothNotFound (env : Env) (st : AndroidState) (t : Nat)
    (h1 : env t ⟨st.serial_number, Iface.adb⟩ = OpenResult.notFound)
    (h2 : env (t + 1) ⟨st.serial_number, Iface.fastboot⟩ = OpenResult.notFound) :
    AndroidHandler.TryOpen env st t
      = (false, st, t + 2,
         [Ev.openAttempt ⟨st.serial_number, Iface.adb⟩ OpenResult.notFound,
          Ev.openAttempt ⟨st.serial_number, Iface.fastboot⟩ OpenResult.notFound]) := by
  simp [AndroidHandler.TryOpen, AndroidHandler.TryOpenSecond, h1, h2, warnEv]

theorem testStart_step_ok (env : Env) (fuel : Nat) (st st' : AndroidState)
    (t t' : Nat) (tr' : List Ev)
    (h : AndroidHandler.TryOpen env st t = (true, st', t', tr')) :
    AndroidHandler.TestStart env (fuel + 1) st t
      = some (st'.serial_number, st', t', tr') := by
  simp [AndroidHandler.TestStart, h]

theorem testStart_step_fail (env : Env) (fuel : Nat) (st st' : AndroidState)
    (t t' : Nat) (tr' : List Ev)
    (h : AndroidHandler.TryOpen env st t = (false, st', t', tr')) :
    AndroidHandler.TestStart env (fuel + 1) st t
      = (AndroidHandler.TestStart env fuel st' t').map
          (fun p => (p.1, p.2.1, p.2.2.1, tr' ++ Ev.sleep 1 :: p.2.2.2)) := by
  simp [AndroidHandler.TestStart, h]

theorem testStop_step_ok (env : Env) (fuel : Nat) (st st' : AndroidState)
    (t t' : Nat) (tr' : List Ev)
    (h : AndroidHandler.TryOpen env st t = (true, st', t', tr')) :
    AndroidHandler.TestStop env (fuel + 1) st t
      = (AndroidHandler.TestStop env fuel st' t').map
          (fun p => (p.1, p.2.1, tr' ++ Ev.sleep 1 :: p.2.2)) := by
  simp [AndroidHandler.TestStop, h]

theorem testStop_step_fail (env : Env) (fuel : Nat) (st st' : AndroidState)
    (t t' : Nat) (tr' : List Ev)
    (h : AndroidHandler.TryOpen env st t = (false, st', t', tr')) :
    AndroidHandler.TestStop env (fuel + 1) st t
      = some ({ st' with serial_number := none }, t', tr') := by
  simp [AndroidHandler.TestStop, h]

/-! ## The hardware-probe waiting lemmas -/

theorem testStart_gap (X : Identity) :
    ∀ (K fuel : Nat) (sn : Option Identity) (t : Nat) (env : Env),
      (∀ j, j < 2 * K → ∀ c, env (t + j) c = OpenResult.notFound) →
      (∀ c, env (t + 2 * K) c = OpenResult.found X) →
      ∃ tr, AndroidHandler.TestStart env (K + fuel + 1) ⟨sn⟩ t
          = some (some X, ⟨some X⟩, t + 2 * K + 1, tr) ∧ countSleeps tr = K := by
  intro K
  induction K with
  | zero =>
    intro fuel sn t env _ hfound
    rw [Nat.zero_add]
    have h := tryOpen_found env ⟨sn⟩ t X (hfound _)
    rw [testStart_step_ok env fuel _ _ _ _ _ h]
    exact ⟨_, rfl, rfl⟩
  | succ K ih =>
    intro fuel sn t env hnf hfound
    have h1 : env t ⟨sn, Iface.adb⟩ = OpenResult.notFound := by
      have := hnf 0 (by omega) ⟨sn, Iface.adb⟩
      simpa using this
    have h2 : env (t + 1) ⟨sn, Iface.fastboot⟩ = OpenResult.notFound :=
      hnf 1 (by omega) _
    have hty := tryOpen_bothNotFound env ⟨sn⟩ t h1 h2
    have harith : K + 1 + fuel + 1 = (K + fuel + 1) + 1 := by omega
    rw [harith, testStart_step_fail env (K + fuel + 1) _ _ _ _ _ hty]
    have hnf' : ∀ j, j < 2 * K → ∀ c, env (t + 2 + j) c = OpenResult.notFound := by
      intro j hj c
      rw [(by omega : t + 2 + j = t + (j + 2))]
      exact hnf (j + 2) (by omega) c
    have hfound' : ∀ c, env (t + 2 + 2 * K) c = OpenResult.found X := by
      intro c
      rw [(by omega : t + 2 + 2 * K = t + 2 * (K + 1))]
      exact hfound c
    obtain ⟨tr, htr, hc⟩ := ih fuel sn (t + 2) env hnf' hfound'
    rw [htr]
    refine ⟨[Ev.openAttempt ⟨sn, Iface.adb⟩ OpenResult.notFound,
             Ev.openAttempt ⟨sn, Iface.fastboot⟩ OpenResult.notFound]
              ++ Ev.sleep 1 :: tr, ?_, ?_⟩
    · rw [(by omega : t + 2 + 2 * K + 1 = t + 2 * (K + 1) + 1)]
      rfl
    · simp [countSleeps_openAttempt, countSleeps_sleep1, hc]

theorem testStop_gone (X : Identity) :
    ∀ (M fuel : Nat) (sn : Option Identity) (t : Nat) (env : Env),
      (∀ j, j < M → ∀ c, env (t + j) c = OpenResult.found X) →
      (∀ c, env (t + M) c = OpenResult.notFound) →
      (∀ c, env (t + M + 1) c = OpenResult.notFound) →
      ∃ tr, AndroidHandler.TestStop env (M + fuel + 1) ⟨sn⟩ t
          = some (⟨none⟩, t + M + 2, tr) ∧ countSleeps tr = M := by
  intro M
  induction M with
  | zero =>
    intro fuel sn t env _ hg1 hg2
    rw [Nat.zero_add]
    have h := tryOpen_bothNotFound env ⟨sn⟩ t (hg1 _) (hg2 _)
    rw [testStop_step_fail env fuel _ _ _ _ _ h]
    exact ⟨_, rfl, rfl⟩
  | succ M ih =>
    intro fuel sn t env hf hg1 hg2
    have h1 : env t ⟨sn, Iface.adb⟩ = OpenResult.found X := by
      have := hf 0 (by omega) ⟨sn, Iface.adb⟩
      simpa using this
    have hty := tryOpen_found env ⟨sn⟩ t X h1
    have harith : M + 1 + fuel + 1 = (M + fuel + 1) + 1 := by omega
    rw [harith, testStop_step_ok env (M + fuel + 1) _ _ _ _ _ hty]
    have hf' : ∀ j, j < M → ∀ c, env (t + 1 + j) c = OpenResult.found X := by
      intro j hj c
      rw [(by omega : t + 1 + j = t + (j + 1))]
      exact hf (j + 1) (by omega) c
    have hg1' : ∀ c, env (t + 1 + M) c = OpenResult.notFound := by
      intro c
      rw [(by omega : t + 1 + M = t + (M + 1))]
      exact hg1 c
    have hg2' : ∀ c, env (t + 1 + M + 1) c = OpenResult.notFound := by
      intro c
      rw [(by omega : t + 1 + M + 1 = t + (M + 1) + 1)]
      exact hg2 c
    obtain ⟨tr, htr, hc⟩ := ih fuel (some X) (t + 1) env hf' hg1' hg2'
    rw [htr]
    refine ⟨[Ev.openAttempt ⟨sn, Iface.adb⟩ (OpenResult.found X)]
              ++ Ev.sleep 1 :: tr, ?_, ?_⟩
    · rw [(by omega : t + 1 + M + 2 = t + (M + 1) + 2)]
      rfl
    · simp [countSleeps_openAttempt, countSleeps_sleep1, hc]

/-- C3: hardware-probe waiting.  With a probe that fails its first `K`
`_TryOpen` attempts and then reports a device with serial `X`, `TestStart`
sleeps 1 second `K` times (one sleep between consecutive attempts), stores
`X` as the tracked identity and returns `X`.  With a probe that still finds
the device for the first `M` attempts and then reports it gone, `TestStop`
sleeps 1 second `M` times and clears the tracked identity to `None`. -/
theorem dut_C3 (K M : Nat) (X : Identity) :
    (∃ tr, AndroidHandler.TestStart (probeGap K X) (K + 1) ⟨none⟩ 0
        = some (some X, ⟨some X⟩, 2 * K + 1, tr) ∧ countSleeps tr = K) ∧
    (∃ tr, AndroidHandler.TestStop (probeGone M X) (M + 1) ⟨some X⟩ 0
        = some (⟨none⟩, M + 2, tr) ∧ countSleeps tr = M) := by
  constructor
  · have hnf : ∀ j, j < 2 * K → ∀ c, probeGap K X (0 + j) c = OpenResult.notFound := by
      intro j hj c
      simp only [probeGap]
      rw [if_pos (by omega)]
    have hfd : ∀ c, probeGap K X (0 + 2 * K) c = OpenResult.found X := by
      intro c
      simp only [probeGap]
      rw [if_neg (by omega)]
    obtain ⟨tr, htr, hc⟩ := testStart_gap X K 0 none 0 (probeGap K X) hnf hfd
    rw [Nat.add_zero, Nat.zero_add] at htr
    exact ⟨tr, htr, hc⟩
  · have hf : ∀ j, j < M → ∀ c, probeGone M X (0 + j) c = OpenResult.found X := by
      intro j hj c
      simp only [probeGone]
      rw [if_pos (by omega)]
    have hg1 : ∀ c, probeGone M X (0 + M) c = OpenResult.notFound := by
      intro c
      simp only [probeGone]
      rw [if_neg (by omega)]
    have hg2 : ∀ c, probeGone M X (0 + M + 1) c = OpenResult.notFound := by
      intro c
      simp only [probeGone]
      rw [if_neg (by omega)]
    obtain ⟨tr, htr, hc⟩ := testStop_gone X M 0 (some X) 0 (probeGone M X) hf hg1 hg2
    rw [Nat.add_zero, Nat.zero_add] at htr
    exact ⟨tr, htr, hc⟩

/-! ## Queue conservation (FIFO, exactly-once) -/

theorem runQOps_conserve :
    ∀ (ops : List QOp) (s : QTrace) (k : Nat),
      (runQOps ops s).popped k ++ (runQOps ops s).deques k
        = s.popped k ++ (s.deques k ++ enqueuedOn ops k) := by
  intro ops
  induction ops with
  | nil => intro s k; simp [runQOps, enqueuedOn]
  | cons op ops ih =>
    intro s k
    rw [runQOps, ih]
    cases op with
    | enq cell v =>
      by_cases hkc : k = cell
      · subst hkc
        simp [stepQOp, FrontendHandler.Enqueue, enqueuedOn]
      · simp [stepQOp, FrontendHandler.Enqueue, enqueuedOn, hkc]
    | deq cell =>
      cases hq : s.deques cell with
      | nil =>
        simp [stepQOp, FrontendHandler.WaitForFrontend, hq, enqueuedOn]
      | cons v rest =>
        by_cases hkc : k = cell
        · subst hkc
          simp [stepQOp, FrontendHandler.WaitForFrontend, hq, enqueuedOn]
        · simp [stepQOp, FrontendHandler.WaitForFrontend, hq, enqueuedOn, hkc]

/-- C5: within one channel `k`, starting from the empty registry, after any
sequence of `Enqueue` and `_WaitForFrontend` operations (on any cells, in any
interleaving) the serials popped on `k` followed by the serials still queued
on `k` are exactly the serials enqueued on `k`, in enqueue order.  Hence the
popped sequence is a prefix of the enqueued sequence: FIFO delivery with no
loss and no duplication — each enqueued entry is removed at most once and
never redelivered. -/
theorem dut_C5 (ops : List QOp) (k : Nat) :
    (runQOps ops initQTrace).popped k ++ (runQOps ops initQTrace).deques k
      = enqueuedOn ops k ∧
    ∃ rest, (runQOps ops initQTrace).popped k ++ rest = enqueuedOn ops k := by
  have h := runQOps_conserve ops initQTrace k
  simp only [initQTrace, emptyDeques, List.nil_append] at h
  exact ⟨h, (runQOps ops initQTrace).deques k, h⟩

/-! ## Probe-filter lemmas -/

theorem tryOpen_filters (env : Env) (st : AndroidState) (t : Nat) :
    allOpensUse st.serial_number (AndroidHandler.TryOpen env st t).2.2.2 = true := by
  cases h1 : env t ⟨st.serial_number, Iface.adb⟩ with
  | found s =>
    simp [AndroidHandler.TryOpen, h1, allOpensUse_openAttempt, allOpensUse_nil]
  | notFound =>
    cases h2 : env (t + 1) ⟨st.serial_number, Iface.fastboot⟩ <;>
      simp [AndroidHandler.TryOpen, AndroidHandler.TryOpenSecond, h1, h2, warnEv,
            allOpensUse_openAttempt, allOpensUse_warn, allOpensUse_nil]
  | multiple =>
    cases h2 : env (t + 1) ⟨st.serial_number, Iface.fastboot⟩ <;>
      simp [AndroidHandler.TryOpen, AndroidHandler.TryOpenSecond, h1, h2, warnEv,
            allOpensUse_openAttempt, allOpensUse_warn, allOpensUse_nil]

theorem tryOpen_fail_state (env : Env) (st : AndroidState) (t : Nat)
    (st' : AndroidState) (t' : Nat) (tr' : List Ev)
    (h : AndroidHandler.TryOpen env st t = (false, st', t', tr')) : st' = st := by
  cases h1 : env t ⟨st.serial_number, Iface.adb⟩ with
  | found s => simp [AndroidHandler.TryOpen, h1] at h
  | notFound =>
    cases h2 : env (t + 1) ⟨st.serial_number, Iface.fastboot⟩ <;>
      simp [AndroidHandler.TryOpen, AndroidHandler.TryOpenSecond, h1, h2] at h <;>
      exact h.1.symm
  | multiple =>
    cases h2 : env (t + 1) ⟨st.serial_number, Iface.fastboot⟩ <;>
      simp [AndroidHandler.TryOpen, AndroidHandler.TryOpenSecond, h1, h2] at h <;>
      exact h.1.symm

theorem testStart_filters (env : Env) :
    ∀ (fuel : Nat) (st : AndroidState) (t : Nat) (r : Option Identity)
      (st' : AndroidState) (t' : Nat) (tr : List Ev),
      AndroidHandler.TestStart env fuel st t = some (r, st', t', tr) →
      allOpensUse st.serial_number tr = true ∧ r = st'.serial_number := by
  intro fuel
  induction fuel with
  | zero =>
    intro st t r st' t' tr h
    simp [AndroidHandler.TestStart] at h
  | succ fuel ih =>
    intro st t r st' t' tr h
    rcases htry : AndroidHandler.TryOpen env st t with ⟨b, st1, t1, tr1⟩
    cases b with
    | true =>
      rw [testStart_step_ok env fuel st st1 t t1 tr1 htry] at h
      simp only [Option.some.injEq, Prod.mk.injEq] at h
      obtain ⟨hr, hst, ht, htr2⟩ := h
      have hf : allOpensUse st.serial_number tr1 = true := by
        have hf0 := tryOpen_filters env st t
        rw [htry] at hf0
        exact hf0
      rw [← htr2, ← hst]
      exact ⟨hf, hr.symm⟩
    | false =>
      have hst1 : st1 = st := tryOpen_fail_state env st t st1 t1 tr1 htry
      rw [testStart_step_fail env fuel st st1 t t1 tr1 htry] at h
      cases hrec : AndroidHandler.TestStart env fuel st1 t1 with
      | none => rw [hrec] at h; simp at h
      | some p =>
        rcases p with ⟨r2, st2, t2, tr2⟩
        rw [hrec] at h
        simp only [Option.map_some', Option.some.injEq, Prod.mk.injEq] at h
        obtain ⟨hr, hst, ht, htr2⟩ := h
        obtain ⟨ha, hb⟩ := ih st1 t1 r2 st2 t2 tr2 hrec
        have hf : allOpensUse st.serial_number tr1 = true := by
          have hf0 := tryOpen_filters env st t
          rw [htry] at hf0
          exact hf0
        constructor
        · rw [← htr2, allOpensUse_append, allOpensUse_sleep, hf]
          rw [hst1] at ha
          simp [ha]
        · rw [← hr, hb, hst]

theorem testStop_clears (env : Env) :
    ∀ (fuel : Nat) (st : AndroidState) (t : Nat) (st' : AndroidState)
      (t' : Nat) (tr : List Ev),
      AndroidHandler.TestStop env fuel st t = some (st', t', tr) →
      st'.serial_number = none := by
  intro fuel
  induction fuel with
  | zero =>
    intro st t st' t' tr h
    simp [AndroidHandler.TestStop] at h
  | succ fuel ih =>
    intro st t st' t' tr h
    rcases htry : AndroidHandler.TryOpen env st t with ⟨b, st1, t1, tr1⟩
    cases b with
    | true =>
      rw [testStop_step_ok env fuel st st1 t t1 tr1 htry] at h
      cases hrec : AndroidHandler.TestStop env fuel st1 t1 with
      | none => rw [hrec] at h; simp at h
      | some p =>
        rcases p with ⟨st2, t2, tr2⟩
        rw [hrec] at h
        simp only [Option.map_some', Option.some.injEq, Prod.mk.injEq] at h
        rw [← h.1]
        exact ih st1 t1 st2 t2 tr2 hrec
    | false =>
      rw [testStop_step_fail env fuel st st1 t t1 tr1 htry] at h
      simp only [Option.some.injEq, Prod.mk.injEq] at h
      rw [← h.1]

/-- C10: the probe's target filter is the currently stored `serial_number`.
Every `Open` call of a `_TryOpen` passes `self.serial_number` as its filter;
every `Open` call of an entire `TestStart` run passes the `serial_number`
stored when the run began (failures never change it), and `TestStart` returns
exactly the stored-at-exit `serial_number` — so a `TestStart` begun from the
fresh `__init__` state (or after any completed `TestStop`, which leaves
`serial_number = None`) probes unfiltered, while a second `TestStart` begun
without an intervening `TestStop` (state `some s` from the first run) targets
only the previously found serial `s`. -/
theorem dut_C10 :
    (∀ (env : Env) (st : AndroidState) (t : Nat),
      allOpensUse st.serial_number (AndroidHandler.TryOpen env st t).2.2.2 = true) ∧
    (∀ (env : Env) (fuel : Nat) (st : AndroidState) (t : Nat)
       (r : Option Identity) (st' : AndroidState) (t' : Nat) (tr : List Ev),
      AndroidHandler.TestStart env fuel st t = some (r, st', t', tr) →
      allOpensUse st.serial_number tr = true ∧ r = st'.serial_number) ∧
    (∀ (env : Env) (fuel : Nat) (st : AndroidState) (t : Nat)
       (st' : AndroidState) (t' : Nat) (tr : List Ev),
      AndroidHandler.TestStop env fuel st t = some (st', t', tr) →
      st'.serial_number = none) ∧
    AndroidHandler.initState.serial_number = none :=
  ⟨tryOpen_filters,
   fun env fuel st t r st' t' tr h => testStart_filters env fuel st t r st' t' tr h,
   fun env fuel st t st' t' tr h => testStop_clears env fuel st t st' t' tr h,
   rfl⟩

/-- C10 witness: a `TestStart` begun with stored serial "S" filters its probe
by "S" and returns the stored-at-exit serial; a completed `TestStop` leaves
the stored serial `None`. -/
theorem dut_C10_witness :
    (allOpensUse (some idS)
        [Ev.openAttempt ⟨some idS, Iface.adb⟩ (OpenResult.found idX)] = true
      ∧ some idX = (⟨some idX⟩ : AndroidState).serial_number) ∧
    (⟨none⟩ : AndroidState).serial_number = none :=
  ⟨dut_C10.2.1 envFoundX 1 ⟨some idS⟩ 0 (some idX) ⟨some idX⟩ 1
      [Ev.openAttempt ⟨some idS, Iface.adb⟩ (OpenResult.found idX)] rfl,
   dut_C10.2.2.1 envGone 1 ⟨some idS⟩ 0 ⟨none⟩ 2
      [Ev.openAttempt ⟨some idS, Iface.adb⟩ OpenResult.notFound,
       Ev.openAttempt ⟨some idS, Iface.fastboot⟩ OpenResult.notFound] rfl⟩

/-! ## Ambiguity is handled like absence -/

theorem stripTrace_mapSleep
    (o : Option (Option Identity × AndroidState × Nat × List Ev)) (tr' : List Ev) :
    stripTrace (o.map (fun p => (p.1, p.2.1, p.2.2.1, tr' ++ Ev.sleep 1 :: p.2.2.2)))
      = stripTrace o := by
  cases o with
  | none => rfl
  | some p => rfl

theorem tryOpen_demote (env : Env) (st : AndroidState) (t : Nat) :
    tryOpenOutcome (demoteMultiple env) st t = tryOpenOutcome env st t := by
  cases h1 : env t ⟨st.serial_number, Iface.adb⟩ <;>
    cases h2 : env (t + 1) ⟨st.serial_number, Iface.fastboot⟩ <;>
      simp [tryOpenOutcome, AndroidHandler.TryOpen, AndroidHandler.TryOpenSecond,
            demoteMultiple, h1, h2]

theorem testStart_demote (env : Env) :
    ∀ (fuel : Nat) (st : AndroidState) (t : Nat),
      stripTrace (AndroidHandler.TestStart (demoteMultiple env) fuel st t)
        = stripTrace (AndroidHandler.TestStart env fuel st t) := by
  intro fuel
  induction fuel with
  | zero => intro st t; rfl
  | succ fuel ih =>
    intro st t
    rcases h1 : AndroidHandler.TryOpen env st t with ⟨b, st1, t1, tr1⟩
    rcases h2 : AndroidHandler.TryOpen (demoteMultiple env) st t with ⟨b2, st2, t2, tr2⟩
    have hd := tryOpen_demote env st t
    simp only [tryOpenOutcome, h1, h2, Prod.mk.injEq] at hd
    obtain ⟨hb, hst, ht⟩ := hd
    subst hb
    subst hst
    subst ht
    cases b2 with
    | true =>
      rw [testStart_step_ok env fuel st st2 t t2 tr1 h1,
          testStart_step_ok (demoteMultiple env) fuel st st2 t t2 tr2 h2]
      rfl
    | false =>
      rw [testStart_step_fail env fuel st st2 t t2 tr1 h1,
          testStart_step_fail (demoteMultiple env) fuel st st2 t t2 tr2 h2,
          stripTrace_mapSleep, stripTrace_mapSleep]
      exact ih st2 t2

theorem demote_probeGapM (K : Nat) (X : Identity) :
    demoteMultiple (probeGapM K X) = probeGap K X := by
  funext t c
  by_cases h : t < 2 * K <;> simp [demoteMultiple, probeGapM, probeGap, h]

/-- C8: ambiguous enumeration is logged and treated exactly like not-found.
Replacing every `MultipleInterfacesFoundError` outcome of the probe
environment by `DeviceNotFoundError` leaves `_TryOpen`'s observable outcome
(success flag, state, call counter) unchanged; when the adb attempt is
ambiguous a warning is logged; and a probe that is ambiguous for its first
`K` attempts and then finds serial `X` still lets `TestStart` retry through
the ambiguity and return `X` — no error or exception escapes (the embedded
operations are total, mirroring the `except` clauses that swallow both
enumeration errors inside `_TryOpen`). -/
theorem dut_C8 :
    (∀ (env : Env) (st : AndroidState) (t : Nat),
      tryOpenOutcome (demoteMultiple env) st t = tryOpenOutcome env st t) ∧
    (∀ (env : Env) (st : AndroidState) (t : Nat),
      env t ⟨st.serial_number, Iface.adb⟩ = OpenResult.multiple →
      Ev.warnMultiple ∈ (AndroidHandler.TryOpen env st t).2.2.2) ∧
    (∀ (K : Nat) (X : Identity), ∃ tr,
      AndroidHandler.TestStart (probeGapM K X) (K + 1) ⟨none⟩ 0
        = some (some X, ⟨some X⟩, 2 * K + 1, tr)) := by
  refine ⟨tryOpen_demote, ?_, ?_⟩
  · intro env st t h1
    cases h2 : env (t + 1) ⟨st.serial_number, Iface.fastboot⟩ <;>
      simp [AndroidHandler.TryOpen, AndroidHandler.TryOpenSecond, h1, h2, warnEv]
  · intro K X
    have hdem := testStart_demote (probeGapM K X) (K + 1) ⟨none⟩ 0
    rw [demote_probeGapM] at hdem
    have hnf : ∀ j, j < 2 * K → ∀ c, probeGap K X (0 + j) c = OpenResult.notFound := by
      intro j hj c
      simp only [probeGap]
      rw [if_pos (by omega)]
    have hfd : ∀ c, probeGap K X (0 + 2 * K) c = OpenResult.found X := by
      intro c
      simp only [probeGap]
      rw [if_neg (by omega)]
    obtain ⟨trg, htrg, _⟩ := testStart_gap X K 0 none 0 (probeGap K X) hnf hfd
    rw [Nat.add_zero, Nat.zero_add] at htrg
    rw [htrg] at hdem
    cases hM : AndroidHandler.TestStart (probeGapM K X) (K + 1) ⟨none⟩ 0 with
    | none => rw [hM] at hdem; simp [stripTrace] at hdem
    | some p =>
      rcases p with ⟨r, st', t', tr'⟩
      rw [hM] at hdem
      simp only [stripTrace, Option.map_some', Option.some.injEq, Prod.mk.injEq] at hdem
      obtain ⟨hr, hst, ht⟩ := hdem
      subst hr
      subst hst
      subst ht
      exact ⟨tr', rfl⟩

/-- C8 witness: with a probe whose adb attempt reports multiple matching
devices, the warning event is present in `_TryOpen`'s trace. -/
theorem dut_C8_witness :
    Ev.warnMultiple ∈ (AndroidHandler.TryOpen envMulti ⟨none⟩ 0).2.2.2 :=
  dut_C8.2.1 envMulti ⟨none⟩ 0 rfl

/-! ## The combined strategy -/

theorem waitForFrontend_trace (m : DequeMap) (cell : Nat) (s : Identity)
    (m' : DequeMap) (tr : List Ev)
    (h : FrontendHandler.WaitForFrontend m cell = some (s, m', tr)) :
    tr = [Ev.pop cell s] := by
  unfold FrontendHandler.WaitForFrontend at h
  cases hq : m cell with
  | nil => rw [hq] at h; simp at h
  | cons a rest =>
    rw [hq] at h
    simp only [Option.some.injEq, Prod.mk.injEq] at h
    rw [← h.2.2, h.1]

/-- C4: the combined strategy.  Whenever the (inherited) frontend
`TestStart` completes with some discarded identity `d`, the combined
`TestStart` is exactly the hardware-probe `TestStart` run afterwards: it
returns the probe's identity (not `d`), and its trace is the frontend events
followed by the probe events; when the frontend `TestStart` is still blocked,
the combined `TestStart` is blocked and no probe activity exists.  The
combined `TestStop` delegates entirely to the frontend `TestStop`: the
android handler state is untouched and the trace contains no USB open attempt
and no sleep — no hardware-disappearance wait happens. -/
theorem dut_C4 (env : Env) (fuel : Nat) (fst : FrontendState) (ast : AndroidState)
    (m : DequeMap) (t : Nat) :
    (∀ (d : Option Identity) (fst' : FrontendState) (m' : DequeMap) (trf : List Ev),
      FrontendHandler.TestStart fst m = some (d, fst', m', trf) →
      FrontendAndroidHandler.TestStart env fuel fst ast m t
        = (AndroidHandler.TestStart env fuel ast t).map
            (fun p => (p.1, fst', p.2.1, m', p.2.2.1, trf ++ p.2.2.2))) ∧
    (FrontendHandler.TestStart fst m = none →
      FrontendAndroidHandler.TestStart env fuel fst ast m t = none) ∧
    (∀ (fst' : FrontendState) (ast' : AndroidState) (m' : DequeMap) (tr : List Ev),
      FrontendAndroidHandler.TestStop fst ast m = some (fst', ast', m', tr) →
      ast' = ast ∧ FrontendHandler.TestStop fst m = some (fst', m', tr) ∧
      (∀ c r, Ev.openAttempt c r ∉ tr) ∧ (∀ n, Ev.sleep n ∉ tr)) := by
  refine ⟨?_, ?_, ?_⟩
  · intro d fst' m' trf h
    cases ha : AndroidHandler.TestStart env fuel ast t with
    | none => simp [FrontendAndroidHandler.TestStart, h, ha]
    | some p =>
      rcases p with ⟨r, ast', t', tra⟩
      simp [FrontendAndroidHandler.TestStart, h, ha]
  · intro h
    simp [FrontendAndroidHandler.TestStart, h]
  · intro fst' ast' m' tr h
    unfold FrontendAndroidHandler.TestStop at h
    cases hs : FrontendHandler.TestStop fst m with
    | none => rw [hs] at h; simp at h
    | some q =>
      rcases q with ⟨f1, m1, tr1⟩
      rw [hs] at h
      simp only [Option.some.injEq, Prod.mk.injEq] at h
      obtain ⟨hf, ha, hm, htr⟩ := h
      subst hf
      subst ha
      subst hm
      subst htr
      obtain ⟨s, hseq⟩ : ∃ s, tr1 = [Ev.pop fst.cell_number s] := by
        unfold FrontendHandler.TestStop at hs
        cases hw : FrontendHandler.WaitForFrontend m fst.cell_number with
        | none => rw [hw] at hs; simp at hs
        | some w =>
          rcases w with ⟨s, m2, tr2⟩
          rw [hw] at hs
          simp only [Option.some.injEq, Prod.mk.injEq] at hs
          have htr2 := waitForFrontend_trace m fst.cell_number s m2 tr2 hw
          rw [← hs.2.2, htr2]
          exact ⟨s, rfl⟩
      subst hseq
      refine ⟨rfl, rfl, ?_, ?_⟩
      · intro c r hmem
        simp at hmem
      · intro n hmem
        simp at hmem

/-- C4 witness: with a stashed frontend identity (so the event wait returns
at once, yielding a discarded value) and a probe that finds "X" immediately,
the combined start equals the probe run; with an empty channel the combined
start is blocked; the combined stop on a channel holding "S1" delegates to
the frontend stop, leaving the android state untouched and a pop-only
trace. -/
theorem dut_C4_witness :
    (FrontendAndroidHandler.TestStart envFoundX 1 ⟨1, some idS⟩ ⟨none⟩ emptyDeques 0
       = (AndroidHandler.TestStart envFoundX 1 ⟨none⟩ 0).map
           (fun p => (p.1, ⟨1, none⟩, p.2.1, emptyDeques, p.2.2.1, [] ++ p.2.2.2))) ∧
    FrontendAndroidHandler.TestStart envFoundX 1 ⟨1, none⟩ ⟨none⟩ emptyDeques 0 = none ∧
    ((⟨none⟩ : AndroidState) = ⟨none⟩ ∧
      FrontendHandler.TestStop ⟨1, none⟩ oneS1Deque
        = some (⟨1, some idS1⟩, c4mAfter, [Ev.pop 1 idS1]) ∧
      (∀ c r, Ev.openAttempt c r ∉ [Ev.pop 1 idS1]) ∧
      (∀ n, Ev.sleep n ∉ [Ev.pop 1 idS1])) :=
  ⟨(dut_C4 envFoundX 1 ⟨1, some idS⟩ ⟨none⟩ emptyDeques 0).1 none ⟨1, none⟩
      emptyDeques [] rfl,
   (dut_C4 envFoundX 1 ⟨1, none⟩ ⟨none⟩ emptyDeques 0).2.1 rfl,
   (dut_C4 envFoundX 1 ⟨1, none⟩ ⟨none⟩ oneS1Deque 0).2.2 ⟨1, some idS1⟩ ⟨none⟩
      c4mAfter [Ev.pop 1 idS1] rfl⟩
